import Mathlib

/-!
Shallow embedding of the cubi-sak client (files `cubi_sak/common.py` and
`cubi_sak/sodar/api.py`) and verification of the frozen claims about it.

Conventions of the embedding:
* Python strings are Lean `String`s; Python `dict`s (which preserve insertion
  order) are association lists `List (String × α)`.
* Python truthiness of an optional string (`None` and `""` are falsy) is
  `pyTruthy`.
* The HTTP layer is modelled by the request value a call would issue; a raised
  Python exception is an `Except.error`.
-/

/-- Truthiness of an optional Python string: `None` and the empty string are
falsy, every other string is truthy. -/
def pyTruthy : Option String → Bool
  | none => false
  | some s => !s.isEmpty

/-- Auxiliary loop of the URL normalization, working on the reversed character
list: drop leading characters while they are `'/'`.  This is the reversed view
of Python's `while sodar_url.endswith("/"): sodar_url = sodar_url[:-1]`. -/
def rstripSlashAux : List Char → List Char
  | [] => []
  | c :: cs => if c = '/' then rstripSlashAux cs else c :: cs

/-- URL normalization performed at the start of every remote entry point in
`cubi_sak/sodar/api.py`: strip all trailing `'/'` characters. -/
def stripTrailingSlashes (s : String) : String :=
  ⟨(rstripSlashAux s.data.reverse).reverse⟩

/-- A string made of `n` slash characters, used to state invariance of the
normalization under appended trailing slashes. -/
def slashes (n : Nat) : String :=
  ⟨List.replicate n '/'⟩

/-- An HTTP request as issued by the remote resource client: method, URL,
bearer token, and for POST the `assay` form field. -/
inductive HttpRequest where
  | get (url : String) (token : String)
  | post (url : String) (token : String) (assayField : String)
deriving DecidableEq

/-- Embedding of `_investigations_get`: the GET request it issues.  URL
template `{base}/samplesheets/api/investigation/retrieve/{project_uuid}`. -/
def investigations_get (sodar_url sodar_api_token project_uuid : String) : HttpRequest :=
  .get (stripTrailingSlashes sodar_url ++ "/samplesheets/api/investigation/retrieve/"
        ++ project_uuid) sodar_api_token

/-- Embedding of `_samplesheets_get`: the GET request it issues.  URL template
`{base}/samplesheets/api/export/json/{project_uuid}`. -/
def samplesheets_get (sodar_url sodar_api_token project_uuid : String) : HttpRequest :=
  .get (stripTrailingSlashes sodar_url ++ "/samplesheets/api/export/json/"
        ++ project_uuid) sodar_api_token

/-- Embedding of `_landingzones_list`: the GET request it issues.  URL template
`{base}/landingzones/api/list/{project_uuid}`. -/
def landingzones_list (sodar_url sodar_api_token project_uuid : String) : HttpRequest :=
  .get (stripTrailingSlashes sodar_url ++ "/landingzones/api/list/"
        ++ project_uuid) sodar_api_token

theorem rstripSlashAux_replicate (n : Nat) (l : List Char) :
    rstripSlashAux (List.replicate n '/' ++ l) = rstripSlashAux l := by
  induction n with
  | zero => simp
  | succ k ih => simp [List.replicate_succ, rstripSlashAux, ih]

theorem rstripSlashAux_idem (l : List Char) :
    rstripSlashAux (rstripSlashAux l) = rstripSlashAux l := by
  induction l with
  | nil => rfl
  | cons c cs ih =>
    by_cases h : c = '/'
    · simp [rstripSlashAux, h, ih]
    · simp [rstripSlashAux, h]

theorem stripTrailingSlashes_append_slashes (u : String) (n : Nat) :
    stripTrailingSlashes (u ++ slashes n) = stripTrailingSlashes u := by
  have hdata : (u ++ slashes n).data = u.data ++ List.replicate n '/' := rfl
  simp [stripTrailingSlashes, hdata, List.reverse_append, List.reverse_replicate,
    rstripSlashAux_replicate]

theorem stripTrailingSlashes_idem (u : String) :
    stripTrailingSlashes (stripTrailingSlashes u) = stripTrailingSlashes u := by
  simp [stripTrailingSlashes, rstripSlashAux_idem]

/-- Python `str.lower()` on a string, character by character. -/
def pyLower (s : String) : String :=
  ⟨s.data.map Char.toLower⟩

/-- Python `s.startswith(pre)`. -/
def pyStartsWith (s pre : String) : Bool :=
  pre.data.isPrefixOf s.data

/-- Character-level loop of `pySplitlines`; `acc` holds the current line in
reverse.  At the end of the input a pending non-empty line is emitted but a
trailing newline does not produce a final empty line. -/
def pySplitlinesAux : List Char → List Char → List String
  | [], acc => if acc.isEmpty then [] else [⟨acc.reverse⟩]
  | c :: rest, acc =>
    if c = '\n' then ⟨acc.reverse⟩ :: pySplitlinesAux rest []
    else pySplitlinesAux rest (c :: acc)

/-- Python `str.splitlines(keepends=False)` restricted to the newline
character: an empty string splits to no lines, and a final trailing newline
does not introduce a final empty line. -/
def pySplitlines (s : String) : List String :=
  pySplitlinesAux s.data []

/-- Truthiness of a Python generator object: a generator is truthy even when
it is exhausted.  Both `difflib.unified_diff` and `icdiff`'s `make_table` are
generator functions, so the value bound to `lines` in `overwrite_helper` is a
generator object in both diff modes. -/
def pyGeneratorTruthy : Bool := true

/-- The world visible to `overwrite_helper`: the current content of the
destination file (`none` when the file does not exist) and the line the user
would type at the `input("Is this OK? [yN] ")` prompt. -/
structure FsWorld where
  destContent : Option String
  userResponse : String
deriving DecidableEq

/-- Observable outcome of one `overwrite_helper` call: final content of the
destination, bytes streamed to stdout, whether `input()` was called, whether
the informational `"File %s not changed, no diff..."` notice was logged, and
whether the rendered diff contained no lines. -/
structure OverwriteOutcome where
  destContent : Option String
  stdoutData : String
  prompted : Bool
  unchangedNotice : Bool
  diffWasEmpty : Bool
deriving DecidableEq

/-- Embedding of `overwrite_helper` from `cubi_sak/common.py`.

* `old_lines`: read from the destination only when `show_diff` is set, the
  destination is not the stdout sentinel `"-"` and the file exists; otherwise
  the empty list.  `new_lines` comes from the staged `contents`.
* Both `difflib.unified_diff` and `icdiff.ConsoleDiff.make_table` (with
  `context=True`) yield no lines exactly when `old_lines == new_lines`;
  `diffWasEmpty` records that, gated on `show_diff`.
* The source then runs `if not lines:` — but `lines` is the generator object,
  which is always truthy, so the notice is logged exactly when
  `pyGeneratorTruthy` is false, i.e. never.
* Writing: only under `do_write`.  For the sentinel `"-"` the staged contents
  go to stdout.  Otherwise the guard is
  `not answer_yes and input(...).lower().startswith("y")`: the prompt happens
  exactly when `answer_yes` is false, and the write happens exactly when
  `answer_yes` is false and the response, lowercased, starts with `"y"`. -/
def overwrite_helper (out_path contents : String)
    (do_write show_diff show_diff_side_by_side answer_yes : Bool)
    (w : FsWorld) : OverwriteOutcome :=
  let old_lines : List String :=
    if out_path ≠ "-" ∧ w.destContent.isSome then pySplitlines (w.destContent.getD "")
    else []
  let new_lines := pySplitlines contents
  let diffWasEmpty := show_diff && (old_lines == new_lines)
  let unchangedNotice := show_diff && !pyGeneratorTruthy
  if do_write then
    if out_path = "-" then
      ⟨w.destContent, contents, false, unchangedNotice, diffWasEmpty⟩
    else if !answer_yes && pyStartsWith (pyLower w.userResponse) "y" then
      ⟨some contents, "", !answer_yes, unchangedNotice, diffWasEmpty⟩
    else
      ⟨w.destContent, "", !answer_yes, unchangedNotice, diffWasEmpty⟩
  else
    ⟨w.destContent, "", false, unchangedNotice, diffWasEmpty⟩

/-- C1: the claim states that with `do_write=true` and `answer_yes` set the
staged content is written without prompting.  In the source the guard is
`if not answer_yes and input(...)...`: with `answer_yes=True` the conjunction
short-circuits to `False`, so the prompt is skipped but so is the write.  At
the concrete failing input the destination keeps its old content and no
prompt occurs, contradicting the claimed write.  (The `answer_yes=False` half
of the claim does hold; the written-without-prompting half is the slip.) -/
theorem overwrite_helper_answer_yes_skips_write :
    (overwrite_helper "out.txt" "new content" true false false true
        ⟨some "old content", "ignored"⟩).destContent = some "old content"
    ∧ (overwrite_helper "out.txt" "new content" true false false true
        ⟨some "old content", "ignored"⟩).prompted = false := by
  constructor <;> rfl

/-- C2: the claim states that an empty rendered diff produces the
informational "unchanged" notice in both diff modes.  In the source the test
`if not lines:` is applied to the generator object returned by
`difflib.unified_diff` (unified mode) and `icdiff`'s `make_table`
(side-by-side mode); a generator object is always truthy, so the notice is
never logged.  At a concrete input whose staged content equals the existing
content the diff is empty yet no notice is emitted, in either mode. -/
theorem overwrite_helper_unchanged_notice_never_emitted :
    ((overwrite_helper "out.txt" "same line" false true false false
        ⟨some "same line", ""⟩).diffWasEmpty = true
      ∧ (overwrite_helper "out.txt" "same line" false true false false
        ⟨some "same line", ""⟩).unchangedNotice = false)
    ∧ ((overwrite_helper "out.txt" "same line" false true true false
        ⟨some "same line", ""⟩).diffWasEmpty = true
      ∧ (overwrite_helper "out.txt" "same line" false true true false
        ⟨some "same line", ""⟩).unchangedNotice = false) := by
  exact ⟨⟨by decide, by decide⟩, ⟨by decide, by decide⟩⟩

/-- C5: with `do_write=false` the Safe File Writer performs no filesystem
mutation of the destination, for every destination, staged content,
`show_diff`/`side_by_side` combination, `answer_yes`, and world state. -/
theorem overwrite_helper_no_write_no_mutation
    (out_path contents : String) (show_diff sbs ay : Bool) (w : FsWorld) :
    (overwrite_helper out_path contents false show_diff sbs ay w).destContent
      = w.destContent := by
  simp [overwrite_helper]

/-- C6: with `do_write=true` and destination equal to the stdout sentinel
`"-"`, the staged content is streamed to stdout verbatim, no confirmation is
ever requested (even with `answer_yes=false`), and the destination world is
untouched. -/
theorem overwrite_helper_stdout_no_prompt
    (contents : String) (show_diff sbs ay : Bool) (w : FsWorld) :
    (overwrite_helper "-" contents true show_diff sbs ay w).stdoutData = contents
    ∧ (overwrite_helper "-" contents true show_diff sbs ay w).prompted = false
    ∧ (overwrite_helper "-" contents true show_diff sbs ay w).destContent
        = w.destContent := by
  refine ⟨?_, ?_, ?_⟩ <;> simp [overwrite_helper]

/-- Study record of an investigation as consumed by `_landingzones_create`:
its ordered assay mapping (assay UUID → assay record).  Only the keys and the
length of the mapping are used by the client. -/
structure SodarStudy where
  assays : List (String × Unit)
deriving DecidableEq

/-- Investigation record as consumed by `_landingzones_create`: its ordered
study mapping (study key → study). -/
structure SodarInvestigation where
  studies : List (String × SodarStudy)
deriving DecidableEq

/-- Embedding of `_landingzones_create`.  When the caller supplies no truthy
`assay_uuid`, the investigation fetched for the project is consulted: exactly
one study is required, then exactly one assay of that study, else the
resolution raises (`Except.error` carrying the exception message) and no POST
request is produced.  On success the POST carries the resolved assay UUID in
the `assay` form field.  `list(d.values())[0]` / `list(d.keys())[0]` are
`headD` on the association list, reached only after the length-1 guard. -/
def landingzones_create (sodar_url sodar_api_token project_uuid : String)
    (assay_uuid : Option String) (inv : SodarInvestigation) :
    Except String HttpRequest :=
  let sodar_url := stripTrailingSlashes sodar_url
  let resolved : Except String String :=
    if pyTruthy assay_uuid then .ok (assay_uuid.getD "")
    else if inv.studies.length ≠ 1 then
      .error "Invalid number of studies in investigation!"
    else
      let study := (inv.studies.map Prod.snd).headD ⟨[]⟩
      if study.assays.length ≠ 1 then
        .error "Invalid number of assays in investigation!"
      else .ok ((study.assays.map Prod.fst).headD "")
  match resolved with
  | .error e => .error e
  | .ok assay_uuid =>
    .ok (.post (sodar_url ++ "/landingzones/api/create/" ++ project_uuid)
          sodar_api_token assay_uuid)

/-- Embedding of `_landingzones_move`: the body normalizes the URL and then
ends, so the list of HTTP requests issued is empty and the Python function
returns `None` (no value). -/
def landingzones_move (sodar_url sodar_api_token landing_zone_uuid : String) :
    List HttpRequest :=
  let _sodar_url := stripTrailingSlashes sodar_url
  []

/-- C3: with `assay_uuid` omitted, `_landingzones_create` fails with the named
ambiguity error (and produces no create POST) whenever the investigation does
not have exactly one study, likewise whenever the single study does not have
exactly one assay; with exactly one of each, the single assay's UUID becomes
the `assay` form field of the POST. -/
theorem landingzones_create_assay_resolution
    (u t p : String) (inv : SodarInvestigation) :
    (inv.studies.length ≠ 1 →
      landingzones_create u t p none inv
        = .error "Invalid number of studies in investigation!")
    ∧ (∀ spath study, inv.studies = [(spath, study)] → study.assays.length ≠ 1 →
      landingzones_create u t p none inv
        = .error "Invalid number of assays in investigation!")
    ∧ (∀ spath study auuid aval,
        inv.studies = [(spath, study)] → study.assays = [(auuid, aval)] →
      landingzones_create u t p none inv
        = .ok (.post (stripTrailingSlashes u ++ "/landingzones/api/create/" ++ p)
              t auuid)) := by
  refine ⟨fun h => ?_, fun spath study hs ha => ?_, fun spath study auuid aval hs ha => ?_⟩
  · simp [landingzones_create, pyTruthy, h]
  · simp [landingzones_create, pyTruthy, hs, ha]
  · simp [landingzones_create, pyTruthy, hs, ha]

/-- Witness for C3 at a concrete investigation with one study holding one
assay: the create POST carries that assay's UUID. -/
theorem landingzones_create_assay_resolution_witness :
    landingzones_create "https://sodar.example.com" "secret" "proj" none
        ⟨[("s_1", ⟨[("assay-uuid-1", ())]⟩)]⟩
      = .ok (.post (stripTrailingSlashes "https://sodar.example.com"
            ++ "/landingzones/api/create/" ++ "proj") "secret" "assay-uuid-1") :=
  (landingzones_create_assay_resolution "https://sodar.example.com" "secret" "proj"
      ⟨[("s_1", ⟨[("assay-uuid-1", ())]⟩)]⟩).2.2
    "s_1" ⟨[("assay-uuid-1", ())]⟩ "assay-uuid-1" () rfl rfl

/-- C8: `_landingzones_move` only normalizes the URL: for every input it
issues no HTTP request and performs no state change (its request list is
empty; the Python function falls off its body returning `None`). -/
theorem landingzones_move_no_request (u t z : String) :
    landingzones_move u t z = [] := rfl

/-- C7: every remote entry point that accepts a base URL builds its request
after stripping all trailing slashes, so appending any number of trailing
slashes to the base URL leaves the issued request unchanged — for
`_investigations_get`, `_samplesheets_get`, `_landingzones_list` and
`_landingzones_create` alike — and the normalization itself is idempotent. -/
theorem url_normalization_idempotent (u t p : String) (n : Nat)
    (a : Option String) (inv : SodarInvestigation) :
    investigations_get (u ++ slashes n) t p = investigations_get u t p
    ∧ samplesheets_get (u ++ slashes n) t p = samplesheets_get u t p
    ∧ landingzones_list (u ++ slashes n) t p = landingzones_list u t p
    ∧ landingzones_create (u ++ slashes n) t p a inv = landingzones_create u t p a inv
    ∧ stripTrailingSlashes (stripTrailingSlashes u) = stripTrailingSlashes u := by
  refine ⟨?_, ?_, ?_, ?_, stripTrailingSlashes_idem u⟩ <;>
    simp [investigations_get, samplesheets_get, landingzones_list,
      landingzones_create, stripTrailingSlashes_append_slashes]

/-- Errors raised by the sample-sheet client: the unsupported-feature
exception (with its message), the Python `IndexError` from indexing an empty
list, and the parameter exception of `get_raw`. -/
inductive SheetError where
  | unsupportedIsaTabFeature (msg : String)
  | indexError
  | parameterException
deriving DecidableEq

/-- Owning `Client` state seen by `_SheetClient`: endpoint URL, token and the
optional default project UUID. -/
structure SheetClientOwner where
  sodar_url : String
  sodar_api_token : String
  project_uuid : Option String
deriving DecidableEq

/-- Embedding of `_SheetClient.get_raw`: raise `ParameterException` when both
the method argument and the owner default are falsy, otherwise issue the
sample-sheet export GET for `project_uuid or self.owner.project_uuid`. -/
def sheetClient_get_raw (owner : SheetClientOwner) (project_uuid : Option String) :
    Except SheetError HttpRequest :=
  if !pyTruthy project_uuid && !pyTruthy owner.project_uuid then
    .error .parameterException
  else
    .ok (samplesheets_get owner.sodar_url owner.sodar_api_token
      ((if pyTruthy project_uuid then project_uuid else owner.project_uuid).getD ""))

/-- One `{tsv, path}` entry of the raw sample-sheet payload. -/
structure TsvEntry where
  tsv : String
  path : String
deriving DecidableEq

/-- Raw JSON sample-sheet payload as returned by the export endpoint:
the investigation entry and the ordered `studies` and `assays` mappings. -/
structure RawSheet where
  investigation : TsvEntry
  studies : List (String × TsvEntry)
  assays : List (String × TsvEntry)
deriving DecidableEq

/-- Result of the external `InvestigationReader` (black box): kept opaque as
the text it was fed. -/
structure ParsedInvestigation where
  src : String
deriving DecidableEq

/-- Result of the external `StudyReader` (black box); the client reads its
`file` attribute to bind assays to the study. -/
structure ParsedStudy where
  file : String
deriving DecidableEq

/-- Result of the external `AssayReader` (black box). -/
structure ParsedAssay where
  src : String
deriving DecidableEq

/-- The `IsaData` bundle assembled by `_SheetClient.get`. -/
structure IsaData where
  investigation : ParsedInvestigation
  investigation_filename : String
  studies : List (String × ParsedStudy)
  assays : List (String × ParsedAssay)
deriving DecidableEq

/-- One invocation of an external ISA-tab reader, recorded in the order the
assembler performs them. -/
inductive ParseEvent where
  | investigationParsed (path : String)
  | studyParsed (path : String)
  | assayParsed (path : String)
deriving DecidableEq

/-- Embedding of `_SheetClient.get`, parametrized by the three external
ISA-tab readers.  Faithful to the source order: parse the investigation,
parse every study of `raw.studies` (reader called as
`StudyReader.from_stream(study_id=path, ..., filename=path)`), then reject
more than one study with `UnsupportedIsaTabFeatureException`, then take
`list(studies.values())[0]` — a Python `IndexError` when the mapping is
empty — and only then parse the assays (reader called with
`study_id=study.file, assay_id=path, filename=path`).  The second component
is the trace of reader invocations actually performed. -/
def sheetClient_get
    (readInvestigation : (tsv filename : String) → ParsedInvestigation)
    (readStudy : (study_id tsv filename : String) → ParsedStudy)
    (readAssay : (study_id assay_id tsv filename : String) → ParsedAssay)
    (raw : RawSheet) : Except SheetError IsaData × List ParseEvent :=
  let inv := readInvestigation raw.investigation.tsv raw.investigation.path
  let invEvents := [ParseEvent.investigationParsed raw.investigation.path]
  let studies := raw.studies.map (fun pd => (pd.1, readStudy pd.1 pd.2.tsv pd.1))
  let studyEvents := raw.studies.map (fun pd => ParseEvent.studyParsed pd.1)
  if studies.length > 1 then
    (.error (.unsupportedIsaTabFeature "More than one study found!"),
      invEvents ++ studyEvents)
  else
    match (studies.map Prod.snd).head? with
    | none => (.error .indexError, invEvents ++ studyEvents)
    | some study =>
      let assays := raw.assays.map (fun pd => (pd.1, readAssay study.file pd.1 pd.2.tsv pd.1))
      let assayEvents := raw.assays.map (fun pd => ParseEvent.assayParsed pd.1)
      (.ok ⟨inv, raw.investigation.path, studies, assays⟩,
        invEvents ++ studyEvents ++ assayEvents)

/-- Concrete investigation reader used in witnesses: keeps the source text. -/
def constInvReader : (tsv filename : String) → ParsedInvestigation :=
  fun tsv _ => ⟨tsv⟩

/-- Concrete study reader used in witnesses: the study file is its id. -/
def constStudyReader : (study_id tsv filename : String) → ParsedStudy :=
  fun study_id _ _ => ⟨study_id⟩

/-- Concrete assay reader used in witnesses: keeps the source text. -/
def constAssayReader : (study_id assay_id tsv filename : String) → ParsedAssay :=
  fun _ _ tsv _ => ⟨tsv⟩

/-- Raw payload with two studies, used as witness input. -/
def twoStudySheet : RawSheet :=
  ⟨⟨"inv_tsv", "i_file.txt"⟩, [("s_1", ⟨"tsv1", "s_1"⟩), ("s_2", ⟨"tsv2", "s_2"⟩)],
    [("a_1", ⟨"atsv", "a_1"⟩)]⟩

/-- Raw payload with an empty studies mapping, used as witness input. -/
def emptyStudySheet : RawSheet :=
  ⟨⟨"inv_tsv", "i_file.txt"⟩, [], [("a_1", ⟨"atsv", "a_1"⟩)]⟩

/-- C4: for every raw payload whose `studies` mapping has more than one entry,
`_SheetClient.get` fails with `UnsupportedIsaTabFeatureException`, and its
trace contains no assay-reader invocation: the failure precedes any assay
assembly. -/
theorem sheetClient_get_multi_study_rejected
    (rI : (tsv filename : String) → ParsedInvestigation)
    (rS : (study_id tsv filename : String) → ParsedStudy)
    (rA : (study_id assay_id tsv filename : String) → ParsedAssay)
    (raw : RawSheet) (h : raw.studies.length > 1) :
    (sheetClient_get rI rS rA raw).1
      = .error (.unsupportedIsaTabFeature "More than one study found!")
    ∧ ∀ p, ParseEvent.assayParsed p ∉ (sheetClient_get rI rS rA raw).2 := by
  constructor
  · simp [sheetClient_get, h]
  · intro p
    simp [sheetClient_get, h, List.mem_map]

/-- Witness for C4 at the concrete two-study payload. -/
theorem sheetClient_get_multi_study_rejected_witness :
    (sheetClient_get constInvReader constStudyReader constAssayReader twoStudySheet).1
      = .error (.unsupportedIsaTabFeature "More than one study found!")
    ∧ ∀ p, ParseEvent.assayParsed p
        ∉ (sheetClient_get constInvReader constStudyReader constAssayReader twoStudySheet).2 :=
  sheetClient_get_multi_study_rejected constInvReader constStudyReader constAssayReader
    twoStudySheet (by decide)

/-- C10: for a raw payload whose `studies` mapping is empty, the assembler
does not raise the unsupported-feature error — the guard only rejects more
than one study — but fails with the unguarded Python `IndexError` from
`list(studies.values())[0]`. -/
theorem sheetClient_get_empty_studies_index_error
    (rI : (tsv filename : String) → ParsedInvestigation)
    (rS : (study_id tsv filename : String) → ParsedStudy)
    (rA : (study_id assay_id tsv filename : String) → ParsedAssay)
    (raw : RawSheet) (h : raw.studies = []) :
    (sheetClient_get rI rS rA raw).1 = .error .indexError
    ∧ (sheetClient_get rI rS rA raw).1
        ≠ .error (.unsupportedIsaTabFeature "More than one study found!") := by
  constructor <;> simp [sheetClient_get, h]

/-- Witness for C10 at the concrete empty-studies payload. -/
theorem sheetClient_get_empty_studies_index_error_witness :
    (sheetClient_get constInvReader constStudyReader constAssayReader emptyStudySheet).1
      = .error .indexError
    ∧ (sheetClient_get constInvReader constStudyReader constAssayReader emptyStudySheet).1
        ≠ .error (.unsupportedIsaTabFeature "More than one study found!") :=
  sheetClient_get_empty_studies_index_error constInvReader constStudyReader
    constAssayReader emptyStudySheet rfl

/-- C9: `_SheetClient.get_raw` raises `ParameterException` exactly when both
the method argument and the owning client's default project UUID are absent
(Python-falsy), and a truthy method argument takes precedence over the owner
default in the issued request. -/
theorem sheetClient_get_raw_parameter_check
    (owner : SheetClientOwner) (m : Option String) :
    (sheetClient_get_raw owner m = .error .parameterException
        ↔ pyTruthy m = false ∧ pyTruthy owner.project_uuid = false)
    ∧ (pyTruthy m = true →
        sheetClient_get_raw owner m
          = .ok (samplesheets_get owner.sodar_url owner.sodar_api_token (m.getD ""))) := by
  constructor
  · cases hm : pyTruthy m <;> cases ho : pyTruthy owner.project_uuid <;>
      simp [sheetClient_get_raw, hm, ho]
  · intro hm
    simp [sheetClient_get_raw, hm]

/-- Witness for C9: with no owner default, a supplied method argument is used
for the request. -/
theorem sheetClient_get_raw_parameter_check_witness :
    sheetClient_get_raw ⟨"https://x", "tok", none⟩ (some "proj")
      = .ok (samplesheets_get "https://x" "tok" "proj") :=
  (sheetClient_get_raw_parameter_check ⟨"https://x", "tok", none⟩ (some "proj")).2
    (by decide)
